import Mathlib

/-!
Shallow embedding of the Cliperus core (src/app_fixed.py and
src/stream_monitor.py): clip scoring, the trigger-event evaluator pass
(`trigger_worker`), the segmentation scheduler pass (`segment_worker`), the
sealed-segment clip pipeline (`process_segment_clips`), the upload part
computation (`auto_queue_clip_for_upload` / `create_upload`), and the
liveness monitor's per-channel step (`StreamMonitor._monitor_loop`).

Timestamps, durations, buffer lengths, scores and trigger values are
modelled as rationals; database rows are structures; the record store is a
list of rows; Python exceptions are `Except Unit`; calls to
`random.uniform(a, b)` are modelled by a parameter together with the bound
`a ≤ r ∧ r ≤ b` where a theorem needs it.
-/

namespace Cliperus

/-- The trigger value as seen by `calculate_clip_score`, which receives a
Python string (or `None`) and calls `float(...)` on it inside a
`try`/`except`: `num q` is a string that parses to the number `q`,
`unparseable` is a non-empty string on which `float` raises (for example
`str(None) = "None"`), and `absent` is a falsy value (`None` or `""`),
which short-circuits the `trigger_value and float(trigger_value) >= ...`
conditions without ever calling `float`. -/
inductive TriggerValue where
  | absent
  | num (q : ℚ)
  | unparseable
deriving DecidableEq

/-- `calculate_clip_score`'s `try` block (src/app_fixed.py lines 520-549):
the tiered base score by trigger kind.  A parse failure (`float` raising)
lands in the `except` handler, which resets the base to 5.0; it can only
happen for the kinds that actually call `float`, namely `donation` and
`chat_activity`. -/
def base_score (trigger_type : String) (v : TriggerValue) : ℚ :=
  if trigger_type = "donation" then
    match v with
    | .num q => if 100 ≤ q then 9.5 else if 50 ≤ q then 8.5 else if 10 ≤ q then 7 else 6
    | .absent => 6
    | .unparseable => 5
  else if trigger_type = "chat_activity" then
    match v with
    | .num q => if 200 ≤ q then 9 else if 100 ≤ q then 8 else 7
    | .absent => 7
    | .unparseable => 5
  else if trigger_type = "viewer_count" then 8
  else if trigger_type = "sentiment" then 7.5
  else if trigger_type = "audio_excitement" then 8.5
  else if trigger_type = "manual" then 5
  else 5

/-- `calculate_clip_score` (src/app_fixed.py line 551): final score is
`min(10.0, base_score + random.uniform(0, 0.5))`; the jitter sample is the
`jitter` parameter. -/
def calculate_clip_score (trigger_type : String) (v : TriggerValue) (jitter : ℚ) : ℚ :=
  min 10 (base_score trigger_type v + jitter)

/-- Modelled from the spec's words (section 4.4 tier table), for comparison
with `base_score`: base score by trigger kind, where the `donation` and
`chat_activity` tiers compare the parsed trigger value against thresholds —
so a value that fails to parse as a number falls back to base 5.0 there —
and the remaining kinds assign a constant base without consulting the
value (`manual` and unrecognized kinds both score 5.0). -/
def base_score_spec (kind : String) (v : TriggerValue) : ℚ :=
  if kind = "donation" then
    match v with
    | .unparseable => 5
    | .num q => if 100 ≤ q then 9.5 else if 50 ≤ q then 8.5 else if 10 ≤ q then 7 else 6
    | .absent => 6
  else if kind = "chat_activity" then
    match v with
    | .unparseable => 5
    | .num q => if 200 ≤ q then 9 else if 100 ≤ q then 8 else 7
    | .absent => 7
  else if kind = "viewer_count" then 8
  else if kind = "sentiment" then 7.5
  else if kind = "audio_excitement" then 8.5
  else 5

/-- `str(trigger.threshold)` as passed to `calculate_clip_score` by the
segment path: a `None` threshold becomes the string `"None"`, on which
`float` raises. -/
def threshold_value : Option ℚ → TriggerValue
  | some q => .num q
  | none => .unparseable

/-- The `ClipTrigger` model (src/app_fixed.py lines 164-173): a trigger
definition.  `threshold` is a nullable column. -/
structure ClipTrigger where
  name : String
  trigger_type : String
  threshold : Option ℚ
  clip_duration : ℚ
  is_enabled : Bool
  pre_buffer : ℚ
  post_buffer : ℚ
deriving DecidableEq

/-- The `TriggerEvent` model (src/app_fixed.py lines 175-181). -/
structure TriggerEvent where
  stream_id : ℕ
  trigger_type : String
  value : ℚ
  processed : Bool
deriving DecidableEq

/-- The `Recording` model (src/app_fixed.py lines 105-118), restricted to
the fields the core reads and writes. -/
structure Recording where
  id : ℕ
  stream_id : ℕ
  segment_number : ℕ
  status : String
  platform : String
  clips_generated : Bool
  duration : ℚ
  file_size : ℕ
  started_at : ℚ
  ended_at : Option ℚ
deriving DecidableEq

/-- The `Clip` model (src/app_fixed.py lines 120-137), restricted to the
fields the core reads and writes.  The columns `start_time`, `end_time`,
`duration` and `score` default to 0, `trigger_value` to `None` and
`status` to `pending` when a creation site omits them. -/
structure Clip where
  recording_id : ℕ
  start_time : ℚ
  end_time : ℚ
  duration : ℚ
  trigger_type : String
  trigger_value : TriggerValue
  score : ℚ
  status : String
  platform : String
deriving DecidableEq

/-- The `Upload` model (src/app_fixed.py lines 139-156), restricted to the
fields the part computation writes. -/
structure Upload where
  clip_id : ℕ
  status : String
  progress : ℚ
  part_number : ℕ
  total_parts : ℕ
deriving DecidableEq

/-- The `Stream` model (src/app_fixed.py lines 92-103), restricted to the
fields the liveness monitor reads and writes. -/
structure Stream where
  name : String
  platform : String
  is_live : Bool
  is_recording : Bool
  auto_record : Bool
deriving DecidableEq

/-- `current_recording_info` (src/app_fixed.py lines 201-207): the mutable
session state owned by the segmentation scheduler. -/
structure SessionInfo where
  is_recording : Bool
  current_segment : ℕ
  segment_start_time : Option ℚ
  stream_id : Option ℕ
  recording_id : Option ℕ
deriving DecidableEq

/-- The state the segment worker touches: the session info plus the
recordings table. -/
structure SegmentState where
  info : SessionInfo
  recordings : List Recording
deriving DecidableEq

/-- The state the trigger worker touches: the trigger-events table and the
clips table. -/
structure TriggerState where
  events : List TriggerEvent
  clips : List Clip
deriving DecidableEq

/-- The dict comprehension
`{t.trigger_type: t for t in ClipTrigger.query.filter_by(is_enabled=True).all()}`
(src/app_fixed.py line 893) followed by `.get(kind)`: among enabled
triggers, later entries of the same kind overwrite earlier ones. -/
def dict_get (triggers : List ClipTrigger) (kind : String) : Option ClipTrigger :=
  (triggers.filter (fun t => t.is_enabled)).foldl
    (fun acc t => if t.trigger_type = kind then some t else acc) none

/-- Helper for `most_recent_recording`: scan a list keeping the element
with the largest `started_at` (first one wins on ties, matching
`order_by(started_at.desc()).first()` on a stable ordering). -/
def pick_latest : Option Recording → List Recording → Option Recording
  | acc, [] => acc
  | none, r :: rs => pick_latest (some r) rs
  | some b, r :: rs => pick_latest (some (if b.started_at < r.started_at then r else b)) rs

/-- `Recording.query.filter_by(stream_id=..., status='recording')
.order_by(Recording.started_at.desc()).first()` (src/app_fixed.py lines
899-902): the most recently started recording still in status `recording`
for the event's stream. -/
def most_recent_recording (recs : List Recording) (sid : ℕ) : Option Recording :=
  pick_latest none (recs.filter (fun r => r.stream_id == sid && r.status == "recording"))

/-- The clip constructed by `trigger_worker` (src/app_fixed.py lines
905-924).  `ctx_pre` and `ctx_post` are
`smart_detection_settings['context_pre_buffer'/'context_post_buffer']`
(defaults 10 and 5); a zero or missing per-trigger buffer falls back to
them through Python `or`.  The creation site passes neither `start_time`
nor `end_time`, so both keep their column default 0. -/
def trigger_worker_clip (t : ClipTrigger) (e : TriggerEvent) (rd : Recording)
    (ctx_pre ctx_post jitter : ℚ) : Clip :=
  { recording_id := rd.id
    start_time := 0
    end_time := 0
    duration := (if t.pre_buffer ≠ 0 then t.pre_buffer else ctx_pre) + t.clip_duration +
      (if t.post_buffer ≠ 0 then t.post_buffer else ctx_post)
    trigger_type := e.trigger_type
    trigger_value := .num e.value
    score := calculate_clip_score e.trigger_type (.num e.value) jitter
    status := "pending"
    platform := rd.platform }

/-- The body of `trigger_worker`'s per-event matching (src/app_fixed.py
lines 896-926), up to but excluding the unconditional
`event.processed = True`: look up the definition by kind; compare the
event value against the threshold — `event.value >= trigger.threshold`
raises a `TypeError` when the threshold column is `NULL` —, find the most
recent active recording, and build the clip.  Returns the optional clip
created for the event. -/
def event_clip (triggers : List ClipTrigger) (recs : List Recording)
    (ctx_pre ctx_post jitter : ℚ) (e : TriggerEvent) : Except Unit (Option Clip) :=
  match dict_get triggers e.trigger_type with
  | none => .ok none
  | some t =>
    match t.threshold with
    | none => .error ()
    | some th =>
      if th ≤ e.value then
        match most_recent_recording recs e.stream_id with
        | none => .ok none
        | some rd => .ok (some (trigger_worker_clip t e rd ctx_pre ctx_post jitter))
      else .ok none

/-- The loop of one `trigger_worker` pass (src/app_fixed.py lines 895-930):
walk the events, skip already-processed ones, mark each examined event
processed and collect the clips it created.  The single `db.session.commit()`
sits after the loop, so an exception anywhere in the loop aborts the whole
pass: this is the `.error` outcome, carrying no partial result.  `jit i` is
the jitter sampled for the event at position `i`. -/
def trigger_pass_aux (triggers : List ClipTrigger) (recs : List Recording)
    (ctx_pre ctx_post : ℚ) (jit : ℕ → ℚ) :
    List TriggerEvent → ℕ → Except Unit (List TriggerEvent × List Clip)
  | [], _ => .ok ([], [])
  | e :: es, i =>
    if e.processed then
      match trigger_pass_aux triggers recs ctx_pre ctx_post jit es (i + 1) with
      | .error u => .error u
      | .ok (es', cs) => .ok (e :: es', cs)
    else
      match event_clip triggers recs ctx_pre ctx_post (jit i) e with
      | .error u => .error u
      | .ok oc =>
        match trigger_pass_aux triggers recs ctx_pre ctx_post jit es (i + 1) with
        | .error u => .error u
        | .ok (es', cs) => .ok ({ e with processed := true } :: es', oc.toList ++ cs)

/-- One `trigger_worker` pass over the whole events table. -/
def trigger_pass (triggers : List ClipTrigger) (recs : List Recording)
    (ctx_pre ctx_post : ℚ) (jit : ℕ → ℚ) (events : List TriggerEvent) :
    Except Unit (List TriggerEvent × List Clip) :=
  trigger_pass_aux triggers recs ctx_pre ctx_post jit events 0

/-- One iteration of the `trigger_worker` loop including its `try`/`except`
(src/app_fixed.py lines 889-935): on success the updated events and the new
clips are committed; on an exception nothing is committed — the
`app.app_context()` teardown discards the uncommitted session — and the
state is unchanged. -/
def trigger_worker_iteration (triggers : List ClipTrigger) (recs : List Recording)
    (ctx_pre ctx_post : ℚ) (jit : ℕ → ℚ) (st : TriggerState) : TriggerState :=
  match trigger_pass triggers recs ctx_pre ctx_post jit st.events with
  | .error _ => st
  | .ok (es', cs) => { events := es', clips := st.clips ++ cs }

/-- `total_duration = clip_duration + pre_buffer + post_buffer` of the
segment path (src/app_fixed.py lines 617-620), with the `or`-fallbacks
`clip_duration or 30`, `pre_buffer or 5`, `post_buffer or 5`. -/
def segment_total_duration (t : ClipTrigger) : ℚ :=
  (if t.clip_duration ≠ 0 then t.clip_duration else 30) +
  (if t.pre_buffer ≠ 0 then t.pre_buffer else 5) +
  (if t.post_buffer ≠ 0 then t.post_buffer else 5)

/-- `max_start = max(0, recording.duration - total_duration) if
recording.duration else 0` (src/app_fixed.py line 622): a zero recording
duration counts as unknown. -/
def segment_max_start (t : ClipTrigger) (rd : Recording) : ℚ :=
  if rd.duration ≠ 0 then max 0 (rd.duration - segment_total_duration t) else 0

/-- `start_time = random.uniform(0, max_start) if max_start > 0 else 0`
(src/app_fixed.py line 623); `r` is the uniform sample, meaningful under
`0 ≤ r ≤ max_start`. -/
def segment_start_choice (t : ClipTrigger) (rd : Recording) (r : ℚ) : ℚ :=
  if 0 < segment_max_start t rd then r else 0

/-- The clip row created by `process_segment_clips` for one enabled trigger
(src/app_fixed.py lines 625-637): window `[start, start + total_duration]`,
score computed from `str(trigger.threshold)`, `trigger_value` left at its
column default. -/
def segment_clip (t : ClipTrigger) (rd : Recording) (r jitter : ℚ) : Clip :=
  { recording_id := rd.id
    start_time := segment_start_choice t rd r
    end_time := segment_start_choice t rd r + segment_total_duration t
    duration := segment_total_duration t
    trigger_type := t.trigger_type
    trigger_value := .absent
    score := calculate_clip_score t.trigger_type (threshold_value t.threshold) jitter
    status := "processing"
    platform := rd.platform }

/-- The clip row created by the manual `POST /api/clips` route
(src/app_fixed.py lines 1303-1316). -/
def manual_clip (recording_id : ℕ) (start_time duration : ℚ) (trigger_type : String)
    (trigger_value : TriggerValue) (platform : String) (jitter : ℚ) : Clip :=
  { recording_id := recording_id
    start_time := start_time
    end_time := start_time + duration
    duration := duration
    trigger_type := trigger_type
    trigger_value := trigger_value
    score := calculate_clip_score trigger_type trigger_value jitter
    status := "processing"
    platform := platform }

/-- The storage-reclaim tail of `process_segment_clips` (src/app_fixed.py
lines 661-682).  `remove_fails` models `os.remove` raising; the second
component is whether the source file is still present afterwards. -/
def storage_reclaim (rd : Recording) (clips_created : ℕ) (auto_delete : Bool)
    (file_exists remove_fails : Bool) : Recording × Bool :=
  let rd1 := { rd with clips_generated := decide (0 < clips_created) }
  if 0 < clips_created ∧ auto_delete = true then
    if file_exists ∧ remove_fails then
      ({ rd1 with status := "completed" }, file_exists)
    else
      ({ rd1 with status := "archived", file_size := 0 }, false)
  else
    ({ rd1 with status := "completed" }, file_exists)

/-- `Recording.query.get(recording_id)` against the recordings list:
first row with the given id. -/
def find_recording (recs : List Recording) (rid : ℕ) : Option Recording :=
  recs.find? (fun r => r.id == rid)

/-- `db.session`'s in-place mutation of one recording row, applied to the
recordings list. -/
def update_recording (recs : List Recording) (rid : ℕ) (f : Recording → Recording) :
    List Recording :=
  recs.map (fun r => if r.id = rid then f r else r)

/-- One `segment_worker` pass (src/app_fixed.py lines 826-881).
`seg_duration` is `SEGMENT_DURATION` (default 3600); `now` the wall clock;
`file_size` is `os.path.getsize` when the current segment's file exists,
`none` otherwise; `new_id` the database id the freshly inserted recording
receives; `stream_platform` is the platform of `Stream.query.get(stream_id)`
when that row exists.  If there is no active session, no segment start
time, no recording id, no matching recording row, or the elapsed time is
below the segment duration, the pass changes nothing; otherwise it seals
the current segment and opens the next one. -/
def segment_worker_pass (seg_duration : ℚ) (st : SegmentState) (now : ℚ)
    (file_size : Option ℕ) (new_id : ℕ) (stream_platform : Option String) : SegmentState :=
  if st.info.is_recording then
    match st.info.segment_start_time with
    | none => st
    | some start =>
      if seg_duration ≤ now - start then
        match st.info.recording_id with
        | none => st
        | some rid =>
          match find_recording st.recordings rid with
          | none => st
          | some _ =>
            let recs1 := update_recording st.recordings rid (fun r =>
              { r with status := "processing", ended_at := some now,
                       duration := now - start,
                       file_size := file_size.getD r.file_size })
            let segment_num := st.info.current_segment + 1
            let new_recording : Recording :=
              { id := new_id
                stream_id := match st.info.stream_id with
                  | some s => if s ≠ 0 then s else 1
                  | none => 1
                segment_number := segment_num
                status := "recording"
                platform := stream_platform.getD "twitch"
                clips_generated := false
                duration := 0
                file_size := 0
                started_at := now
                ended_at := none }
            { info := { st.info with
                current_segment := segment_num
                segment_start_time := some now
                recording_id := some new_id }
              recordings := recs1 ++ [new_recording] }
      else st
  else st

/-- The TikTok part count of `auto_queue_clip_for_upload` (src/app_fixed.py
lines 763-767) and `create_upload` (lines 1412-1416):
`total_parts = 1`, overridden for measured durations above 60 s by
`int(duration // 60) + (1 if duration % 60 > 0 else 0)`. -/
def tiktok_total_parts (duration : ℚ) : ℕ :=
  if 60 < duration then
    (⌊duration / 60⌋).toNat + (if 0 < duration - 60 * ⌊duration / 60⌋ then 1 else 0)
  else 1

/-- The distribution jobs created for one clip (src/app_fixed.py lines
769-781 and 1418-1432): one `Upload` row per part, numbered from 1, all
sharing the same `total_parts`. -/
def create_upload_jobs (clip_id : ℕ) (duration : ℚ) : List Upload :=
  (List.range (tiktok_total_parts duration)).map (fun i =>
    { clip_id := clip_id
      status := "pending"
      progress := 0
      part_number := i + 1
      total_parts := tiktok_total_parts duration })

/-- Concrete fixture: the default `Donation Alert` trigger definition
(src/app_fixed.py line 1922): kind `donation`, threshold 5.0, clip
duration 30, pre-buffer 10, post-buffer 5, enabled. -/
def donation_trigger : ClipTrigger :=
  { name := "Donation Alert", trigger_type := "donation", threshold := some 5,
    clip_duration := 30, is_enabled := true, pre_buffer := 10, post_buffer := 5 }

/-- Concrete fixture: an active recording for stream 7. -/
def active_recording : Recording :=
  { id := 3, stream_id := 7, segment_number := 1, status := "recording",
    platform := "twitch", clips_generated := false, duration := 0, file_size := 0,
    started_at := 100, ended_at := none }

/-- Concrete fixture: an unprocessed donation event of value 150 for
stream 7. -/
def donation_event : TriggerEvent :=
  { stream_id := 7, trigger_type := "donation", value := 150, processed := false }

/-- Concrete fixture: a sealed recording whose measured duration (100 s)
exceeds the total clip window. -/
def sealed_recording : Recording :=
  { id := 1, stream_id := 7, segment_number := 1, status := "processing",
    platform := "twitch", clips_generated := false, duration := 100, file_size := 0,
    started_at := 0, ended_at := none }

/-- Concrete fixture: a sealed recording whose measured duration (10 s) is
known but shorter than the 45 s total clip window of `donation_trigger`. -/
def short_recording : Recording :=
  { id := 1, stream_id := 7, segment_number := 1, status := "processing",
    platform := "twitch", clips_generated := false, duration := 10, file_size := 0,
    started_at := 0, ended_at := none }

/-- Concrete fixture: a trigger definition whose nullable `threshold`
column is NULL, as the `POST /api/triggers` route permits
(src/app_fixed.py line 1505 passes `data.get('threshold')`). -/
def null_threshold_trigger : ClipTrigger :=
  { name := "Viewer Milestone", trigger_type := "viewer_count", threshold := none,
    clip_duration := 45, is_enabled := true, pre_buffer := 10, post_buffer := 5 }

/-- Concrete fixture: an unprocessed viewer-count event for stream 7. -/
def viewer_event : TriggerEvent :=
  { stream_id := 7, trigger_type := "viewer_count", value := 1000, processed := false }

/-- Concrete fixture: a live, recording channel with auto-record on. -/
def live_channel : Stream :=
  { name := "chan", platform := "twitch", is_live := true, is_recording := true,
    auto_record := true }

/-- Concrete fixture: an active session at segment 3, recording row 11,
segment clock started at time 0. -/
def session_fixture : SegmentState :=
  { info := { is_recording := true, current_segment := 3, segment_start_time := some 0,
              stream_id := some 7, recording_id := some 11 },
    recordings := [{ id := 11, stream_id := 7, segment_number := 3, status := "recording",
                     platform := "twitch", clips_generated := false, duration := 0,
                     file_size := 0, started_at := 0, ended_at := none }] }

/-- One channel's step inside `StreamMonitor._monitor_loop`
(src/stream_monitor.py lines 54-69): compare the checked liveness with the
stored flag, write the new value only on a change, and on an
offline-to-live transition of a non-recording auto-record channel start a
recording (`_auto_start_recording`, which inserts `new_rec` and sets
`is_recording`).  Nothing is ever stopped or removed. -/
def monitor_check (s : Stream) (recs : List Recording) (live : Bool)
    (new_rec : Recording) : Stream × List Recording :=
  if live ≠ s.is_live then
    let s1 : Stream := { s with is_live := live }
    if live && !s.is_recording && s.auto_record then
      ({ s1 with is_recording := true }, recs ++ [new_rec])
    else (s1, recs)
  else (s, recs)

/-! ## Helper lemmas -/

/-- The code's tier table (`base_score`) coincides with the spec's tier
table (`base_score_spec`). -/
theorem base_score_eq_spec (kind : String) (v : TriggerValue) :
    base_score kind v = base_score_spec kind v := by
  unfold base_score base_score_spec
  split_ifs <;> first | rfl | (cases v <;> rfl)

/-- Every base score is at least 5. -/
theorem base_score_ge_five (kind : String) (v : TriggerValue) :
    5 ≤ base_score kind v := by
  cases v <;> simp only [base_score] <;> split_ifs <;> norm_num

/-! ## C6 -/

/-- C6: for every trigger kind, trigger value and jitter j in [0, 0.5],
the clip score equals min(10, base + j) where base is the spec's tier
table (with a value that fails to parse falling back to base 5.0 for the
kinds that parse the value), and consequently every score lies in
[0, 10]. -/
theorem C6_score_formula (kind : String) (v : TriggerValue) (j : ℚ)
    (h0 : 0 ≤ j) (h1 : j ≤ 1 / 2) :
    calculate_clip_score kind v j = min 10 (base_score_spec kind v + j) ∧
    0 ≤ calculate_clip_score kind v j ∧ calculate_clip_score kind v j ≤ 10 := by
  have hb := base_score_eq_spec kind v
  have h5 := base_score_ge_five kind v
  refine ⟨by rw [calculate_clip_score, hb], ?_, min_le_left _ _⟩
  rw [calculate_clip_score]
  exact le_min (by norm_num) (by linarith)

/-- C6 witness: concrete evaluation at kind `donation`, value 150,
jitter 1/4. -/
theorem C6_score_formula_witness :
    calculate_clip_score "donation" (.num 150) (1 / 4) =
      min 10 (base_score_spec "donation" (.num 150) + 1 / 4) ∧
    0 ≤ calculate_clip_score "donation" (.num 150) (1 / 4) ∧
    calculate_clip_score "donation" (.num 150) (1 / 4) ≤ 10 :=
  C6_score_formula "donation" (.num 150) (1 / 4) (by norm_num) (by norm_num)

/-! ## C1 -/

/-- C1 counterexample: the trigger-event path (`trigger_worker`,
src/app_fixed.py lines 913-925) creates its clip without passing
`start_time` or `end_time`, so both stay at the column default 0 while
`duration` is 10 + 30 + 5 = 45; the persisted fields therefore violate
`end_time == start_time + duration` for this concrete matched event. -/
theorem C1_counterexample :
    (trigger_worker_clip donation_trigger donation_event active_recording 10 5 (1 / 4)).end_time ≠
      (trigger_worker_clip donation_trigger donation_event active_recording 10 5 (1 / 4)).start_time +
        (trigger_worker_clip donation_trigger donation_event active_recording 10 5 (1 / 4)).duration := by
  norm_num [trigger_worker_clip, donation_trigger]

/-- C1 (amended): clips created by the sealed-segment path and by manual
clip creation satisfy `end_time = start_time + duration`; clips created by
the trigger-event path leave `start_time` and `end_time` at their column
default 0 (so the invariant fails there whenever the clip's total
duration is nonzero). -/
theorem C1_clip_window_invariant (t tg : ClipTrigger) (rd rc : Recording)
    (r j j2 j3 cp cpo : ℚ) (rid : ℕ) (s d : ℚ) (ty : String) (v : TriggerValue)
    (p : String) (e : TriggerEvent) :
    (segment_clip t rd r j).end_time =
        (segment_clip t rd r j).start_time + (segment_clip t rd r j).duration ∧
    (manual_clip rid s d ty v p j2).end_time =
        (manual_clip rid s d ty v p j2).start_time + (manual_clip rid s d ty v p j2).duration ∧
    (trigger_worker_clip tg e rc cp cpo j3).start_time = 0 ∧
    (trigger_worker_clip tg e rc cp cpo j3).end_time = 0 :=
  ⟨rfl, rfl, rfl, rfl⟩

/-! ## C4 -/

/-- C4 counterexample: in the sealed-segment path with the default
donation trigger (total window 45 s) over a recording whose duration is
known to be 10 s, `max_start` is 0, the chosen start offset is 0 (r = 0 is
the only admissible uniform sample), and `start + totalDuration = 45 > 10`
— the claimed bound `start + totalDuration ≤ sourceDuration` fails even
though the source duration is known (nonzero). -/
theorem C4_counterexample :
    ¬ ((segment_clip donation_trigger short_recording 0 0).start_time +
        (segment_clip donation_trigger short_recording 0 0).duration ≤
        short_recording.duration) := by
  have h45 : segment_total_duration donation_trigger = 45 := by
    norm_num [segment_total_duration, donation_trigger]
  have hmax : segment_max_start donation_trigger short_recording = 0 := by
    rw [segment_max_start, h45, show short_recording.duration = 10 from rfl,
      if_pos (by norm_num : (10 : ℚ) ≠ 0)]
    exact max_eq_left (by norm_num)
  have hstart : (segment_clip donation_trigger short_recording 0 0).start_time = 0 := by
    show segment_start_choice donation_trigger short_recording 0 = 0
    rw [segment_start_choice, hmax]
    norm_num
  intro hcontra
  rw [hstart, show (segment_clip donation_trigger short_recording 0 0).duration =
      segment_total_duration donation_trigger from rfl, h45,
    show short_recording.duration = 10 from rfl] at hcontra
  norm_num at hcontra

/-- C4 (amended): in the sealed-segment path, for every enabled trigger
definition the chosen start offset satisfies
`start + totalDuration ≤ sourceDuration` whenever the source duration is
known (nonzero) and at least `totalDuration`; the start offset is 0 when
the source duration is unknown (zero) or smaller than `totalDuration`.
`r` is the `random.uniform(0, max_start)` sample, hence the bounds. -/
theorem C4_window_bound (t : ClipTrigger) (rd : Recording) (r j : ℚ)
    (h0 : 0 ≤ r) (h1 : r ≤ segment_max_start t rd) :
    (rd.duration ≠ 0 → (segment_clip t rd r j).duration ≤ rd.duration →
      (segment_clip t rd r j).start_time + (segment_clip t rd r j).duration ≤ rd.duration) ∧
    (rd.duration = 0 → (segment_clip t rd r j).start_time = 0) ∧
    (rd.duration ≠ 0 → rd.duration < (segment_clip t rd r j).duration →
      (segment_clip t rd r j).start_time = 0) := by
  refine ⟨?_, ?_, ?_⟩
  · intro hd hle
    have hle' : segment_total_duration t ≤ rd.duration := hle
    show segment_start_choice t rd r + segment_total_duration t ≤ rd.duration
    have hmax : segment_max_start t rd = max 0 (rd.duration - segment_total_duration t) := by
      simp [segment_max_start, hd]
    unfold segment_start_choice
    split_ifs with hpos
    · have hr' : r ≤ rd.duration - segment_total_duration t := by
        have h1' := h1
        rw [hmax, max_eq_right (by linarith)] at h1'
        exact h1'
      linarith
    · linarith
  · intro hd
    show segment_start_choice t rd r = 0
    have hmax : segment_max_start t rd = 0 := by simp [segment_max_start, hd]
    simp [segment_start_choice, hmax]
  · intro hd hlt
    have hlt' : rd.duration < segment_total_duration t := hlt
    show segment_start_choice t rd r = 0
    have hmax : segment_max_start t rd = 0 := by
      simp only [segment_max_start, if_pos hd]
      exact max_eq_left (by linarith)
    simp [segment_start_choice, hmax]

/-- C4 witness: the donation trigger (window 45 s) over a 100 s recording
with uniform sample 20 gives a window ending at 65 ≤ 100. -/
theorem C4_window_bound_witness :
    (segment_clip donation_trigger sealed_recording 20 0).start_time +
      (segment_clip donation_trigger sealed_recording 20 0).duration ≤
      sealed_recording.duration :=
  (C4_window_bound donation_trigger sealed_recording 20 0 (by norm_num)
      (by norm_num [segment_max_start, segment_total_duration, donation_trigger,
        sealed_recording, le_max_iff])).1
    (by norm_num [sealed_recording])
    (by norm_num [segment_clip, segment_total_duration, donation_trigger, sealed_recording])

/-! ## C8 -/

/-- C8: after all trigger definitions have been attempted for a sealed
segment — if at least one clip succeeded and auto-delete is enabled, the
source file is deleted and the Recording ends `archived` with file size 0;
if the deletion raises, the Recording ends `completed` with its size
unchanged and the file retained; if auto-delete is disabled or no clip
succeeded, the Recording ends `completed` and the file is retained. -/
theorem C8_storage_reclaim_policy (rd : Recording) (clips_created : ℕ)
    (auto_delete file_exists remove_fails : Bool) :
    (0 < clips_created → auto_delete = true → remove_fails = false →
      (storage_reclaim rd clips_created auto_delete file_exists remove_fails).1.status =
          "archived" ∧
      (storage_reclaim rd clips_created auto_delete file_exists remove_fails).1.file_size = 0 ∧
      (storage_reclaim rd clips_created auto_delete file_exists remove_fails).2 = false) ∧
    (0 < clips_created → auto_delete = true → remove_fails = true → file_exists = true →
      (storage_reclaim rd clips_created auto_delete file_exists remove_fails).1.status =
          "completed" ∧
      (storage_reclaim rd clips_created auto_delete file_exists remove_fails).1.file_size =
          rd.file_size ∧
      (storage_reclaim rd clips_created auto_delete file_exists remove_fails).2 = true) ∧
    (auto_delete = false ∨ clips_created = 0 →
      (storage_reclaim rd clips_created auto_delete file_exists remove_fails).1.status =
          "completed" ∧
      (storage_reclaim rd clips_created auto_delete file_exists remove_fails).1.file_size =
          rd.file_size ∧
      (storage_reclaim rd clips_created auto_delete file_exists remove_fails).2 =
          file_exists) := by
  refine ⟨?_, ?_, ?_⟩
  · intro hc ha hr
    subst ha; subst hr
    simp [storage_reclaim, hc]
  · intro hc ha hr hf
    subst ha; subst hr; subst hf
    simp [storage_reclaim, hc]
  · intro h
    rcases h with ha | hc
    · subst ha; simp [storage_reclaim]
    · subst hc; simp [storage_reclaim]

/-- C8 witness: one successful clip, auto-delete on, existing file,
deletion succeeds. -/
theorem C8_storage_reclaim_policy_witness :
    (storage_reclaim sealed_recording 1 true true false).1.status = "archived" ∧
    (storage_reclaim sealed_recording 1 true true false).1.file_size = 0 ∧
    (storage_reclaim sealed_recording 1 true true false).2 = false :=
  (C8_storage_reclaim_policy sealed_recording 1 true true false).1 (by norm_num) rfl rfl

/-! ## C9 -/

/-- C9: a liveness-monitor pass never stops a recording: on a
live-to-offline transition only `is_live` is cleared — `is_recording` and
the recordings table are untouched —; when the checked liveness equals the
stored value the channel is not written at all; a recording channel stays
recording; and no recording row is ever removed. -/
theorem C9_monitor_never_stops (s : Stream) (recs : List Recording) (live : Bool)
    (new_rec : Recording) :
    (s.is_live = true → live = false →
      monitor_check s recs live new_rec = ({ s with is_live := false }, recs)) ∧
    (live = s.is_live → monitor_check s recs live new_rec = (s, recs)) ∧
    (s.is_recording = true → (monitor_check s recs live new_rec).1.is_recording = true) ∧
    (∀ r ∈ recs, r ∈ (monitor_check s recs live new_rec).2) := by
  refine ⟨?_, ?_, ?_, ?_⟩
  · intro hl hlv
    subst hlv
    simp [monitor_check, hl]
  · intro hlv
    simp [monitor_check, hlv]
  · intro hr
    unfold monitor_check
    split_ifs with h1 h2
    · simp
    · simp [hr]
    · exact hr
  · intro r hrm
    unfold monitor_check
    split_ifs <;> simp [hrm]

/-- C9 witness: a live, recording, auto-record channel checked offline
keeps recording and keeps its recordings; only `is_live` is cleared. -/
theorem C9_monitor_never_stops_witness :
    monitor_check live_channel [active_recording] false active_recording =
      ({ live_channel with is_live := false }, [active_recording]) :=
  (C9_monitor_never_stops live_channel [active_recording] false active_recording).1 rfl rfl

/-! ## C7 -/

/-- C7: dispatching a clip for distribution creates
`max(1, ceil(duration / 60))` DistributionJobs for the measured duration,
with part numbers 1, 2, ..., total_parts and the same `total_parts` on
every sibling job; in particular a 125 s clip yields 3 jobs. -/
theorem C7_distribution_parts (cid : ℕ) (d : ℚ) :
    (tiktok_total_parts d : ℤ) = max 1 ⌈d / 60⌉ ∧
    (create_upload_jobs cid d).length = tiktok_total_parts d ∧
    (create_upload_jobs cid d).map Upload.part_number =
      (List.range (tiktok_total_parts d)).map (fun i => i + 1) ∧
    (∀ u ∈ create_upload_jobs cid d, u.total_parts = tiktok_total_parts d ∧
      u.clip_id = cid ∧ u.status = "pending") ∧
    tiktok_total_parts 125 = 3 := by
  have h60 : (0 : ℚ) < 60 := by norm_num
  refine ⟨?_, ?_, ?_, ?_, ?_⟩
  · by_cases h : 60 < d
    · have hq1 : (1 : ℚ) < d / 60 := by
        rw [lt_div_iff h60]; linarith
      have hn1 : (1 : ℤ) ≤ ⌊d / 60⌋ := by
        rw [Int.le_floor]; exact_mod_cast hq1.le
      by_cases hfr : 0 < d - 60 * (⌊d / 60⌋ : ℚ)
      · have hlt : ((⌊d / 60⌋ : ℤ) : ℚ) < d / 60 := by
          rw [lt_div_iff h60]; linarith
        have hceil : ⌈d / 60⌉ = ⌊d / 60⌋ + 1 := by
          have hle : ⌈d / 60⌉ ≤ ⌊d / 60⌋ + 1 := by
            rw [Int.ceil_le]; push_cast
            exact (Int.lt_floor_add_one (d / 60)).le
          have hge : ⌊d / 60⌋ + 1 ≤ ⌈d / 60⌉ := by
            rw [Int.add_one_le_iff, Int.lt_ceil]; exact hlt
          omega
        rw [show tiktok_total_parts d =
            (⌊d / 60⌋).toNat + (if 0 < d - 60 * (⌊d / 60⌋ : ℚ) then 1 else 0) from
          if_pos h, if_pos hfr, hceil]
        rw [max_eq_right (by omega : (1 : ℤ) ≤ ⌊d / 60⌋ + 1)]
        push_cast [Int.toNat_of_nonneg (by omega : (0 : ℤ) ≤ ⌊d / 60⌋)]
        ring
      · have hub : d / 60 ≤ ((⌊d / 60⌋ : ℤ) : ℚ) := by
          rw [div_le_iff h60]; linarith [le_of_not_lt hfr]
        have hceil : ⌈d / 60⌉ = ⌊d / 60⌋ :=
          le_antisymm (Int.ceil_le.mpr hub) (Int.floor_le_ceil _)
        rw [show tiktok_total_parts d =
            (⌊d / 60⌋).toNat + (if 0 < d - 60 * (⌊d / 60⌋ : ℚ) then 1 else 0) from
          if_pos h, if_neg hfr, hceil]
        rw [max_eq_right hn1]
        push_cast [Int.toNat_of_nonneg (by omega : (0 : ℤ) ≤ ⌊d / 60⌋)]
        ring
    · have hle1 : ⌈d / 60⌉ ≤ 1 := by
        rw [Int.ceil_le]
        push_cast
        rw [div_le_one h60]
        exact le_of_not_lt h
      rw [show tiktok_total_parts d = 1 from if_neg h, max_eq_left hle1]
      norm_num
  · simp [create_upload_jobs]
  · simp [create_upload_jobs, List.map_map, Function.comp]
  · intro u hu
    simp only [create_upload_jobs, List.mem_map] at hu
    obtain ⟨i, -, rfl⟩ := hu
    exact ⟨rfl, rfl, rfl⟩
  · have h2 : ⌊(125 : ℚ) / 60⌋ = 2 := by norm_num
    have hif : (0 : ℚ) < 125 - 60 * ((2 : ℤ) : ℚ) := by norm_num
    unfold tiktok_total_parts
    rw [if_pos (by norm_num : (60 : ℚ) < 125), h2, if_pos hif]
    rfl

/-- C7 witness: the 125 s scenario — 3 parts, and the first created job
already carries total_parts = 3. -/
theorem C7_distribution_parts_witness :
    ({ clip_id := 4, status := "pending", progress := 0, part_number := 1,
       total_parts := tiktok_total_parts 125 } : Upload).total_parts =
      tiktok_total_parts 125 ∧
    (tiktok_total_parts 125 : ℤ) = max 1 ⌈(125 : ℚ) / 60⌉ := by
  have h := C7_distribution_parts 4 125
  have h3 : tiktok_total_parts 125 = 3 := h.2.2.2.2
  refine ⟨(h.2.2.2.1 _ ?_).1, h.1⟩
  apply List.mem_map.mpr
  refine ⟨0, ?_, rfl⟩
  rw [List.mem_range, h3]
  norm_num

/-! ## Lemmas about recording selection -/

/-- A result of `pick_latest` comes from the accumulator or the list. -/
theorem pick_latest_mem :
    ∀ (l : List Recording) (acc : Option Recording) (rd : Recording),
      pick_latest acc l = some rd → acc = some rd ∨ rd ∈ l := by
  intro l
  induction l with
  | nil =>
    intro acc rd h
    simp only [pick_latest] at h
    exact Or.inl h
  | cons r rs ih =>
    intro acc rd h
    cases acc with
    | none =>
      simp only [pick_latest] at h
      rcases ih (some r) rd h with h' | h'
      · injection h' with h''
        exact Or.inr (h'' ▸ List.mem_cons_self r rs)
      · exact Or.inr (List.mem_cons_of_mem r h')
    | some b =>
      simp only [pick_latest] at h
      by_cases hlt : b.started_at < r.started_at
      · rw [if_pos hlt] at h
        rcases ih (some r) rd h with h' | h'
        · injection h' with h''
          exact Or.inr (h'' ▸ List.mem_cons_self r rs)
        · exact Or.inr (List.mem_cons_of_mem r h')
      · rw [if_neg hlt] at h
        rcases ih (some b) rd h with h' | h'
        · exact Or.inl h'
        · exact Or.inr (List.mem_cons_of_mem r h')

/-- `pick_latest` never goes below its accumulator's start stamp. -/
theorem pick_latest_acc_le :
    ∀ (l : List Recording) (b rd : Recording),
      pick_latest (some b) l = some rd → b.started_at ≤ rd.started_at := by
  intro l
  induction l with
  | nil =>
    intro b rd h
    simp only [pick_latest] at h
    injection h with h'
    rw [← h']
  | cons r rs ih =>
    intro b rd h
    simp only [pick_latest] at h
    by_cases hlt : b.started_at < r.started_at
    · rw [if_pos hlt] at h
      exact le_of_lt (lt_of_lt_of_le hlt (ih r rd h))
    · rw [if_neg hlt] at h
      exact ih b rd h

/-- `pick_latest` dominates every list element's start stamp. -/
theorem pick_latest_le :
    ∀ (l : List Recording) (acc : Option Recording) (rd : Recording),
      pick_latest acc l = some rd → ∀ x ∈ l, x.started_at ≤ rd.started_at := by
  intro l
  induction l with
  | nil => intro acc rd _ x hx; cases hx
  | cons r rs ih =>
    intro acc rd h x hx
    rcases List.mem_cons.mp hx with rfl | hx'
    · cases acc with
      | none =>
        simp only [pick_latest] at h
        exact pick_latest_acc_le rs x rd h
      | some b =>
        simp only [pick_latest] at h
        by_cases hlt : b.started_at < x.started_at
        · rw [if_pos hlt] at h
          exact pick_latest_acc_le rs x rd h
        · rw [if_neg hlt] at h
          exact le_trans (not_lt.mp hlt) (pick_latest_acc_le rs b rd h)
    · cases acc with
      | none =>
        simp only [pick_latest] at h
        exact ih (some r) rd h x hx'
      | some b =>
        simp only [pick_latest] at h
        exact ih _ rd h x hx'

/-- What `most_recent_recording` returns: an active recording of the
requested stream whose `started_at` dominates every other active
recording of that stream. -/
theorem most_recent_recording_spec {recs : List Recording} {sid : ℕ} {rd : Recording}
    (h : most_recent_recording recs sid = some rd) :
    rd.stream_id = sid ∧ rd.status = "recording" ∧
    ∀ r' ∈ recs, r'.stream_id = sid → r'.status = "recording" →
      r'.started_at ≤ rd.started_at := by
  unfold most_recent_recording at h
  have hmem : rd ∈ recs.filter (fun r => r.stream_id == sid && r.status == "recording") := by
    rcases pick_latest_mem _ none rd h with h' | h'
    · exact Option.noConfusion h'
    · exact h'
  obtain ⟨-, hpred⟩ := List.mem_filter.mp hmem
  simp only [Bool.and_eq_true, beq_iff_eq] at hpred
  refine ⟨hpred.1, hpred.2, ?_⟩
  intro r' hr' hsid hst
  exact pick_latest_le _ none rd h r'
    (List.mem_filter.mpr ⟨hr', by simp [hsid, hst]⟩)

/-! ## Lemmas about the trigger-worker pass -/

/-- Re-marking an already processed event changes nothing. -/
theorem processed_eta {e : TriggerEvent} (hp : e.processed = true) :
    { e with processed := true } = e := by
  cases e
  simp only at hp
  rw [hp]

/-- A successful pass returns the input events, each marked processed. -/
theorem trigger_pass_aux_ok_events {triggers : List ClipTrigger} {recs : List Recording}
    {cp cpo : ℚ} {jit : ℕ → ℚ} :
    ∀ {es : List TriggerEvent} {i : ℕ} {es' : List TriggerEvent} {cs : List Clip},
      trigger_pass_aux triggers recs cp cpo jit es i = .ok (es', cs) →
      es' = es.map (fun e => { e with processed := true }) := by
  intro es
  induction es with
  | nil =>
    intro i es' cs h
    simp only [trigger_pass_aux] at h
    injection h with h'
    injection h' with ha hb
    cases ha
    rfl
  | cons e es ih =>
    intro i es' cs h
    simp only [trigger_pass_aux] at h
    by_cases hp : e.processed
    · rw [if_pos hp] at h
      cases haux : trigger_pass_aux triggers recs cp cpo jit es (i + 1) with
      | error u =>
        rw [haux] at h
        exact Except.noConfusion h
      | ok p =>
        obtain ⟨es₀, cs₀⟩ := p
        rw [haux] at h
        injection h with h'
        injection h' with ha hb
        cases ha
        rw [List.map_cons, processed_eta hp, ih haux]
    · rw [if_neg hp] at h
      cases hec : event_clip triggers recs cp cpo (jit i) e with
      | error u =>
        rw [hec] at h
        exact Except.noConfusion h
      | ok oc =>
        rw [hec] at h
        cases haux : trigger_pass_aux triggers recs cp cpo jit es (i + 1) with
        | error u =>
          rw [haux] at h
          exact Except.noConfusion h
        | ok p =>
          obtain ⟨es₀, cs₀⟩ := p
          rw [haux] at h
          injection h with h'
          injection h' with ha hb
          cases ha
          rw [List.map_cons, ih haux]

/-- Marked-processed events really are processed. -/
theorem mem_map_processed {es : List TriggerEvent} {e' : TriggerEvent}
    (h : e' ∈ es.map (fun e => { e with processed := true })) : e'.processed = true := by
  obtain ⟨e, -, rfl⟩ := List.mem_map.mp h
  rfl

/-- A pass over only-processed events is a no-op that creates no clips. -/
theorem trigger_pass_aux_skip {triggers : List ClipTrigger} {recs : List Recording}
    {cp cpo : ℚ} {jit : ℕ → ℚ} :
    ∀ (es : List TriggerEvent) (i : ℕ), (∀ e ∈ es, e.processed = true) →
      trigger_pass_aux triggers recs cp cpo jit es i = .ok (es, []) := by
  intro es
  induction es with
  | nil => intro i _; rfl
  | cons e es ih =>
    intro i hall
    have hp : e.processed = true := hall e (List.mem_cons_self e es)
    have ht := ih (i + 1) (fun x hx => hall x (List.mem_cons_of_mem e hx))
    simp only [trigger_pass_aux, if_pos hp, ht]

/-! ## C2 -/

/-- C2: after one evaluator pass that completes without error, the events
table is exactly the input with every event marked processed — so every
event that was unprocessed at the start of the pass now has
processed = true, regardless of match outcome — and a subsequent pass (any
jitters) leaves the events unchanged and creates no clips. -/
theorem C2_events_consumed_once (triggers : List ClipTrigger) (recs : List Recording)
    (cp cpo : ℚ) (jit jit' : ℕ → ℚ) (events es' : List TriggerEvent) (cs : List Clip)
    (h : trigger_pass triggers recs cp cpo jit events = .ok (es', cs)) :
    es' = events.map (fun e => { e with processed := true }) ∧
    (∀ e' ∈ es', e'.processed = true) ∧
    trigger_pass triggers recs cp cpo jit' es' = .ok (es', []) := by
  have hmap := trigger_pass_aux_ok_events h
  refine ⟨hmap, ?_, ?_⟩
  · intro e' he'
    rw [hmap] at he'
    exact mem_map_processed he'
  · apply trigger_pass_aux_skip
    intro e' he'
    rw [hmap] at he'
    exact mem_map_processed he'

/-- C2 witness: a pass over one unprocessed donation event with no active
recording still consumes the event, and a second pass is a no-op. -/
theorem C2_events_consumed_once_witness :
    [{ donation_event with processed := true }] =
      [donation_event].map (fun e => { e with processed := true }) ∧
    (∀ e' ∈ [{ donation_event with processed := true }], e'.processed = true) ∧
    trigger_pass [donation_trigger] [] 10 5 (fun _ => 0)
        [{ donation_event with processed := true }] =
      .ok ([{ donation_event with processed := true }], []) :=
  C2_events_consumed_once [donation_trigger] [] 10 5 (fun _ => 0) (fun _ => 0)
    [donation_event] [{ donation_event with processed := true }] [] (by rfl)

/-! ## C5 -/

/-- C5: a trigger event whose kind matches an enabled definition, with
value at least the definition's threshold, and an active recording for
its channel, yields exactly one clip: status `pending`, attached to the
most recently started recording still in status `recording` for that
channel, with duration preBuffer + clipDuration + postBuffer (falling
back to the globally configured buffers when the definition omits its
own); in the donation scenario (value at least 100, jitter in [0, 0.5])
the score lies in [9.5, 10]. -/
theorem C5_matched_event_creates_clip (triggers : List ClipTrigger) (recs : List Recording)
    (cp cpo j : ℚ) (e : TriggerEvent) (t : ClipTrigger) (th : ℚ) (rd : Recording)
    (ht : dict_get triggers e.trigger_type = some t)
    (hth : t.threshold = some th)
    (hv : th ≤ e.value)
    (hr : most_recent_recording recs e.stream_id = some rd) :
    event_clip triggers recs cp cpo j e =
      .ok (some (trigger_worker_clip t e rd cp cpo j)) ∧
    (trigger_worker_clip t e rd cp cpo j).status = "pending" ∧
    (trigger_worker_clip t e rd cp cpo j).recording_id = rd.id ∧
    (trigger_worker_clip t e rd cp cpo j).duration =
      (if t.pre_buffer ≠ 0 then t.pre_buffer else cp) + t.clip_duration +
        (if t.post_buffer ≠ 0 then t.post_buffer else cpo) ∧
    rd.stream_id = e.stream_id ∧ rd.status = "recording" ∧
    (∀ r' ∈ recs, r'.stream_id = e.stream_id → r'.status = "recording" →
      r'.started_at ≤ rd.started_at) ∧
    (e.trigger_type = "donation" → 100 ≤ e.value → 0 ≤ j → j ≤ 1 / 2 →
      9.5 ≤ (trigger_worker_clip t e rd cp cpo j).score ∧
        (trigger_worker_clip t e rd cp cpo j).score ≤ 10) := by
  obtain ⟨hsid, hst, hmax⟩ := most_recent_recording_spec hr
  refine ⟨?_, rfl, rfl, rfl, hsid, hst, hmax, ?_⟩
  · simp only [event_clip, ht, hth, if_pos hv, hr]
  · intro hdon hval hj0 hj1
    have hsc : (trigger_worker_clip t e rd cp cpo j).score = min 10 (9.5 + j) := by
      show calculate_clip_score e.trigger_type (.num e.value) j = min 10 (9.5 + j)
      rw [hdon, calculate_clip_score]
      congr 1
      simp [base_score, hval]
    rw [hsc]
    exact ⟨le_min (by norm_num) (by linarith), min_le_left _ _⟩

/-- C5 witness: the donation scenario — threshold 5, clip duration 30,
pre-buffer 10, post-buffer 5, event value 150, jitter 1/4: one pending
clip of duration 45 on the active recording, score in [9.5, 10]. -/
theorem C5_matched_event_creates_clip_witness :
    event_clip [donation_trigger] [active_recording] 10 5 (1 / 4) donation_event =
      .ok (some (trigger_worker_clip donation_trigger donation_event active_recording
        10 5 (1 / 4))) ∧
    (trigger_worker_clip donation_trigger donation_event active_recording 10 5 (1 / 4)).status =
      "pending" ∧
    (trigger_worker_clip donation_trigger donation_event active_recording 10 5 (1 / 4)).duration =
      45 ∧
    9.5 ≤ (trigger_worker_clip donation_trigger donation_event active_recording
      10 5 (1 / 4)).score ∧
    (trigger_worker_clip donation_trigger donation_event active_recording
      10 5 (1 / 4)).score ≤ 10 := by
  have h := C5_matched_event_creates_clip [donation_trigger] [active_recording] 10 5 (1 / 4)
    donation_event donation_trigger 5 active_recording rfl rfl (by norm_num [donation_event])
    (by rfl)
  have hscore := h.2.2.2.2.2.2.2 rfl (by norm_num [donation_event]) (by norm_num) (by norm_num)
  refine ⟨h.1, h.2.1, ?_, hscore.1, hscore.2⟩
  rw [h.2.2.2.1]
  norm_num [donation_trigger]

/-! ## C10 -/

/-- Matching an event against a definition whose nullable threshold is
NULL raises (`event.value >= trigger.threshold` is a `TypeError`). -/
theorem event_clip_null_threshold {triggers : List ClipTrigger} {recs : List Recording}
    {cp cpo j : ℚ} {e : TriggerEvent} {t : ClipTrigger}
    (ht : dict_get triggers e.trigger_type = some t) (hth : t.threshold = none) :
    event_clip triggers recs cp cpo j e = .error () := by
  simp only [event_clip, ht, hth]

/-- A pass containing an unprocessed event that raises aborts with an
error, whatever else the events list contains. -/
theorem trigger_pass_aux_error {triggers : List ClipTrigger} {recs : List Recording}
    {cp cpo : ℚ} {jit : ℕ → ℚ} {e : TriggerEvent} {t : ClipTrigger}
    (ht : dict_get triggers e.trigger_type = some t) (hth : t.threshold = none)
    (hp : e.processed = false) :
    ∀ (es : List TriggerEvent), e ∈ es → ∀ (i : ℕ),
      trigger_pass_aux triggers recs cp cpo jit es i = .error () := by
  intro es
  induction es with
  | nil => intro hmem; cases hmem
  | cons x xs ih =>
    intro hmem i
    rcases List.mem_cons.mp hmem with rfl | hmem'
    · simp [trigger_pass_aux, hp, event_clip_null_threshold ht hth]
    · have hrec := ih hmem' (i + 1)
      by_cases hx : x.processed
      · simp [trigger_pass_aux, hx, hrec]
      · cases hec : event_clip triggers recs cp cpo (jit i) x with
        | error u =>
          cases u
          simp [trigger_pass_aux, hx, hec]
        | ok oc =>
          simp [trigger_pass_aux, hx, hec, hrec]

/-- C10: the evaluator pass commits once at its end, so when matching any
unprocessed event raises (here: a definition whose threshold is NULL), the
whole pass errors and the worker iteration leaves the state untouched —
no event is persisted as processed and no clip is saved, so the events
are examined again on the next pass. -/
theorem C10_pass_is_atomic (triggers : List ClipTrigger) (recs : List Recording)
    (cp cpo : ℚ) (jit : ℕ → ℚ) (st : TriggerState) (e : TriggerEvent) (t : ClipTrigger)
    (he : e ∈ st.events) (hp : e.processed = false)
    (ht : dict_get triggers e.trigger_type = some t) (hth : t.threshold = none) :
    trigger_pass triggers recs cp cpo jit st.events = .error () ∧
    trigger_worker_iteration triggers recs cp cpo jit st = st := by
  have herr := @trigger_pass_aux_error triggers recs cp cpo jit e t ht hth hp st.events he 0
  refine ⟨herr, ?_⟩
  unfold trigger_worker_iteration trigger_pass
  rw [herr]

/-- C10 witness: one unprocessed viewer-count event against an enabled
definition with a NULL threshold — the pass errors, the state (one
unprocessed event, no clips) is unchanged. -/
theorem C10_pass_is_atomic_witness :
    trigger_pass [null_threshold_trigger] [] 10 5 (fun _ => 0) [viewer_event] = .error () ∧
    trigger_worker_iteration [null_threshold_trigger] [] 10 5 (fun _ => 0)
        { events := [viewer_event], clips := [] } =
      { events := [viewer_event], clips := [] } :=
  C10_pass_is_atomic [null_threshold_trigger] [] 10 5 (fun _ => 0)
    { events := [viewer_event], clips := [] } viewer_event null_threshold_trigger
    (List.mem_cons_self _ _) rfl rfl rfl

/-! ## C3 -/

/-- C3: a segment-worker pass with an active session (recording flag set,
segment clock running, current recording row present): when the elapsed
time `now - start` is strictly below the configured segment duration the
pass changes nothing; otherwise it rotates exactly once — the current
recording is set to status `processing` with its end time stamped, its
duration set to the elapsed time and its file size updated when the file
exists, a new recording with segment index incremented by 1 and status
`recording` is appended, and the session's segment clock is reset to
`now` with the session pointing at the new recording. -/
theorem C3_segment_rotation (segd : ℚ) (st : SegmentState) (now : ℚ)
    (file_size : Option ℕ) (new_id : ℕ) (plat : Option String)
    (start : ℚ) (rid : ℕ) (rd : Recording)
    (h1 : st.info.is_recording = true)
    (h2 : st.info.segment_start_time = some start)
    (h3 : st.info.recording_id = some rid)
    (h4 : find_recording st.recordings rid = some rd) :
    (now - start < segd →
      segment_worker_pass segd st now file_size new_id plat = st) ∧
    (segd ≤ now - start →
      segment_worker_pass segd st now file_size new_id plat =
        { info := { st.info with
              current_segment := st.info.current_segment + 1
              segment_start_time := some now
              recording_id := some new_id }
          recordings :=
            update_recording st.recordings rid (fun r =>
              { r with status := "processing", ended_at := some now,
                       duration := now - start,
                       file_size := file_size.getD r.file_size }) ++
            [{ id := new_id
               stream_id := match st.info.stream_id with
                 | some s => if s ≠ 0 then s else 1
                 | none => 1
               segment_number := st.info.current_segment + 1
               status := "recording"
               platform := plat.getD "twitch"
               clips_generated := false
               duration := 0
               file_size := 0
               started_at := now
               ended_at := none }] }) := by
  constructor
  · intro hlt
    simp only [segment_worker_pass, h1, h2, if_true]
    rw [if_neg (not_le.mpr hlt)]
  · intro hle
    simp only [segment_worker_pass, h1, h2, h3, h4, if_true, if_pos hle]

/-- C3 witness: segment duration 3600 s, elapsed 3601 s — the pass seals
segment 3 (status `processing`, duration 3601, file size 999) and opens
segment 4 (status `recording`), resetting the segment clock. -/
theorem C3_segment_rotation_witness :
    segment_worker_pass 3600 session_fixture 3601 (some 999) 12 (some "twitch") =
      { info := { is_recording := true, current_segment := 4,
                  segment_start_time := some 3601, stream_id := some 7,
                  recording_id := some 12 }
        recordings :=
          [{ id := 11, stream_id := 7, segment_number := 3, status := "processing",
             platform := "twitch", clips_generated := false, duration := 3601 - 0,
             file_size := 999, started_at := 0, ended_at := some 3601 },
           { id := 12, stream_id := 7, segment_number := 4, status := "recording",
             platform := "twitch", clips_generated := false, duration := 0,
             file_size := 0, started_at := 3601, ended_at := none }] } := by
  have h := (C3_segment_rotation 3600 session_fixture 3601 (some 999) 12 (some "twitch")
    0 11 { id := 11, stream_id := 7, segment_number := 3, status := "recording",
           platform := "twitch", clips_generated := false, duration := 0,
           file_size := 0, started_at := 0, ended_at := none }
    rfl rfl rfl (by rfl)).2 (by norm_num)
  rw [h]
  rfl

end Cliperus
